import Mathlib

/-!
# Verification of the OCR searchable-text-layer synthesizer

Shallow embedding of `OCREngine.make_searchable` from
`src/pdf_editor_pro_v2.py` (lines 883–943), together with the pieces of
`PDFDocument` it relies on (`get_page`, `render_page`, `page_count`,
`is_modified`).

Modelling conventions:
* Python floats are modelled as exact rationals (`ℚ`); the literal `0.85`
  becomes `85/100`.
* `pytesseract` confidence values arrive as integers or as a non-numeric
  sentinel.  The source normalizes with
  `conf = int(s) if str(s).lstrip('-').isdigit() else 0`, which maps any
  integer value (including negative or out-of-range ones) to itself and
  any non-numeric value to `0`; this is captured by the `ConfVal` sum type
  and `normConf`.
* Python `str.strip()` is modelled by `pyStrip`, which drops leading and
  trailing whitespace characters from the string's character list.
* The external collaborators (rasterizer `doc.render_page`, OCR adapter
  `pytesseract.image_to_data`, width measurement `fitz.get_text_length`,
  writer `page.insert_text`) are injected as functions.  A raised Python
  exception in the rasterizer or OCR adapter is `Except.error` — the source
  has no `try` around the page loop, so such errors propagate out of
  `make_searchable`; Python's `ZeroDivisionError` at `sx, sy = pw/iw, ph/ih`
  is modelled by an explicit check producing `PyErr.zeroDiv`.  A raised
  exception in `fitz.get_text_length` or `page.insert_text` is caught by the
  per-word `try/except: pass`, so those are modelled as `Option`/`Bool`
  results consumed locally.
* The `callback` progress argument has no effect on the result and is
  omitted; the initial `import pytesseract` guard (which returns
  `(False, 0)` when the import fails) is outside the modelled pass.
-/

/-- A recognized word's confidence as delivered by the OCR adapter: either an
integer value or a non-numeric sentinel (e.g. a float or garbage string). -/
inductive ConfVal where
  | num (n : ℤ)
  | nonNum
deriving DecidableEq, Repr

/-- `conf = int(str(c)) if str(c).lstrip('-').isdigit() else 0`
(line 915 of the source): an integer confidence passes through unchanged —
its decimal string, once leading minus signs are stripped, is all digits —
while a non-numeric confidence falls to `0`. -/
def normConf : ConfVal → ℤ
  | .num n => n
  | .nonNum => 0

/-- Python `text.strip()` (line 914 of the source): remove leading and
trailing whitespace from both ends of the string. -/
def pyStrip (s : String) : String :=
  ⟨((s.data.dropWhile Char.isWhitespace).reverse.dropWhile Char.isWhitespace).reverse⟩

/-- One word from `pytesseract.image_to_data(...)`: the parallel arrays
`text`, `conf`, `left`, `top`, `width`, `height` at one index `i`. -/
structure RecWord where
  text : String
  conf : ConfVal
  left : ℚ
  top : ℚ
  width : ℚ
  height : ℚ
deriving DecidableEq, Repr

/-- A page-space box: `px, py = x*sx, y*sy` and `pw_t, ph_t = w*sx, h*sy`
(lines 919–921 of the source). -/
structure PageBox where
  x : ℚ
  y : ℚ
  w : ℚ
  h : ℚ
deriving DecidableEq, Repr

/-- The four scalings `x*sx, y*sy, w*sx, h*sy` applied to a word's pixel
box (lines 919–921 of the source). -/
def pageSpaceBox (sx sy : ℚ) (word : RecWord) : PageBox :=
  ⟨word.left * sx, word.top * sy, word.width * sx, word.height * sy⟩

/-- `fs = max(4, min(72, fs))` (lines 924 and 929 of the source). -/
def clampFS (fs : ℚ) : ℚ :=
  max 4 (min 72 fs)

/-- One invisible text placement committed by
`page.insert_text((px, py + ph_t*0.85), text, fontsize=fs, fontname="helv",
color=(0,0,0), render_mode=3)` (lines 931–935): the anchor point, the
(stripped) text and the font size.  Font name, color and the invisible
render mode 3 are constants in the source and carry no information. -/
structure Entry where
  anchorX : ℚ
  anchorY : ℚ
  text : String
  fontSize : ℚ
deriving DecidableEq, Repr

/-- The per-word body of the inner loop (lines 913–936 of the source):
threshold rejection, coordinate mapping, font-size estimation, width
correction and the write, with the per-word `try/except: pass`.
`measure` models `fitz.get_text_length(text, fontsize=fs)` (`none` = the
call raised, caught by the `except`); `wr` models whether
`page.insert_text` succeeds for the given text and font size (`false` =
it raised, caught by the `except`). -/
def processWord (measure : String → ℚ → Option ℚ) (wr : String → ℚ → Bool)
    (sx sy : ℚ) (word : RecWord) : Option Entry :=
  let text := pyStrip word.text
  let conf := normConf word.conf
  if text = "" ∨ conf < 30 then
    none
  else
    let box := pageSpaceBox sx sy word
    let fs0 := clampFS (box.h * (85/100))
    match measure text fs0 with
    | none => none
    | some tl =>
      let fs := if 0 < tl ∧ 0 < box.w then clampFS (fs0 * (box.w / tl)) else fs0
      if wr text fs then
        some ⟨box.x, box.y + box.h * (85/100), text, fs⟩
      else
        none

/-- A page of the document: `page.rect.width`, `page.rect.height` and the
text-layer entries so far inserted into its content stream. -/
structure Page where
  rectW : ℚ
  rectH : ℚ
  content : List Entry
deriving DecidableEq, Repr

/-- The slice of `PDFDocument` the pass touches: the page list (indexed
access models `get_page`, its length models `page_count`) and the
`is_modified` flag. -/
structure PDFDocument where
  pages : List Page
  is_modified : Bool
deriving DecidableEq, Repr

/-- A Python exception escaping the page loop: either a raise inside the
rasterizer / OCR adapter, or the `ZeroDivisionError` from
`sx, sy = pw / iw, ph / ih` when a bitmap dimension is zero. -/
inductive PyErr where
  | adapterErr
  | zeroDiv
deriving DecidableEq, Repr

/-- The bitmap returned by `doc.render_page(pnum, zoom=2.0)`:
`iw, ih = img.size`. -/
structure Bitmap where
  w : ℕ
  h : ℕ
deriving DecidableEq, Repr

/-- The injected collaborators of the pass.  `render pnum` models
`doc.render_page(pnum, zoom=2.0)`: `.error` = the rasterizer raised
(uncaught in the source), `.ok none` = it returned `None`
(`if not img: continue`), `.ok (some img)` = a bitmap.  `ocr pnum` models
`pytesseract.image_to_data` on that page's bitmap (deterministic per page
index); `.error` = it raised (uncaught).  `measure` and `wr` are the
per-word collaborators of `processWord`. -/
structure Adapters where
  render : ℕ → Except PyErr (Option Bitmap)
  ocr : ℕ → Except PyErr (List RecWord)
  measure : String → ℚ → Option ℚ
  wr : String → ℚ → Bool

/-- The page loop of `make_searchable` (lines 894–939): for each page
number, `get_page` (skip if `None`), render (skip if `None`, propagate a
raise), compute `sx, sy` (`ZeroDivisionError` on a zero-sized bitmap),
run OCR (propagate a raise), process every word, append the accepted
entries to the page content, and increment `processed`. -/
def runPages (A : Adapters) : List ℕ → List Page → ℕ → Except PyErr (List Page × ℕ)
  | [], pages, processed => .ok (pages, processed)
  | pnum :: rest, pages, processed =>
    match pages[pnum]? with
    | none => runPages A rest pages processed
    | some page =>
      match A.render pnum with
      | .error e => .error e
      | .ok none => runPages A rest pages processed
      | .ok (some img) =>
        if img.w = 0 ∨ img.h = 0 then
          .error .zeroDiv
        else
          let sx := page.rectW / (img.w : ℚ)
          let sy := page.rectH / (img.h : ℚ)
          match A.ocr pnum with
          | .error e => .error e
          | .ok words =>
            runPages A rest
              (pages.set pnum
                { page with
                  content :=
                    page.content ++ words.filterMap (processWord A.measure A.wr sx sy) })
              (processed + 1)

/-- `pages = [page_num] if page_num is not None else range(doc.page_count)`
(line 891 of the source). -/
def pageNums (doc : PDFDocument) : Option ℕ → List ℕ
  | some p => [p]
  | none => List.range doc.pages.length

/-- `OCREngine.make_searchable(doc, page_num, callback) -> (bool, int)`
(lines 883–943): `pages = [page_num] if page_num is not None else
range(doc.page_count)`; run the page loop; then
`if processed > 0: doc.is_modified = True` and
`return processed > 0, processed`.  The result carries the updated
document, the success flag and the processed count. -/
def make_searchable (A : Adapters) (doc : PDFDocument) (page_num : Option ℕ) :
    Except PyErr (PDFDocument × Bool × ℕ) :=
  match runPages A (pageNums doc page_num) doc.pages 0 with
  | .error e => .error e
  | .ok (pages2, processed) =>
    .ok ({ pages := pages2,
           is_modified := if processed > 0 then true else doc.is_modified },
         decide (processed > 0), processed)

/-! ## Helper lemmas -/

theorem clampFS_lower (fs : ℚ) : 4 ≤ clampFS fs :=
  le_max_left _ _

theorem clampFS_upper (fs : ℚ) : clampFS fs ≤ 72 :=
  max_le (by norm_num) (min_le_left _ _)

theorem make_searchable_ok_iff (A : Adapters) (doc : PDFDocument) (pn : Option ℕ)
    (doc2 : PDFDocument) (succ : Bool) (n : ℕ) :
    make_searchable A doc pn = .ok (doc2, succ, n) ↔
      ∃ pages2, runPages A (pageNums doc pn) doc.pages 0 = .ok (pages2, n) ∧
        doc2 = ⟨pages2, if 0 < n then true else doc.is_modified⟩ ∧
        succ = decide (0 < n) := by
  unfold make_searchable
  cases hr : runPages A (pageNums doc pn) doc.pages 0 with
  | error e => simp
  | ok pr =>
    obtain ⟨pages2, c⟩ := pr
    simp only [Except.ok.injEq, Prod.mk.injEq]
    constructor
    · rintro ⟨hdoc, hsucc, hn⟩
      subst hn
      exact ⟨pages2, ⟨rfl, rfl⟩, hdoc.symm, hsucc.symm⟩
    · rintro ⟨p2, ⟨hp2, hc⟩, hdoc, hsucc⟩
      subst hp2; subst hc
      exact ⟨hdoc.symm, hsucc.symm, rfl⟩

/-! ## Claims -/

/-- Adapters for Scenario A of the spec: a 1024×1024 px bitmap, one word
`{left:100, top:100, width:200, height:40, confidence:90, text:"Hello"}`,
a measured text width of 100 (exactly the page-space box width) and a
writer that succeeds. -/
def scenarioA_adapters : Adapters where
  render := fun _ => .ok (some ⟨1024, 1024⟩)
  ocr := fun _ => .ok [⟨"Hello", .num 90, 100, 100, 200, 40⟩]
  measure := fun _ _ => some 100
  wr := fun _ _ => true

/-- A single 512×512 pt page with empty text layer. -/
def scenarioA_doc : PDFDocument := ⟨[⟨512, 512, []⟩], false⟩

/-- C1: the pixel-to-page mapping uses `sx = pagePointWidth / pixelWidth`,
`sy = pagePointHeight / pixelHeight` and maps the pixel box
`(left, top, width, height)` to `(left*sx, top*sy, width*sx, height*sy)`;
for a 1024×1024 px bitmap of a 512×512 pt page the pixel box
`{left:100, top:100, width:200, height:40}` maps to the page box
`{x:50, y:50, width:100, height:20}` (and the full pass writes the
corresponding entry, anchored at `(50, 50 + 20*0.85)` with font size 17). -/
theorem C1_pixel_to_page_mapping :
    (∀ (pw ph : ℚ) (iw ih : ℕ) (word : RecWord),
      pageSpaceBox (pw / (iw : ℚ)) (ph / (ih : ℚ)) word =
        ⟨word.left * (pw / (iw : ℚ)), word.top * (ph / (ih : ℚ)),
          word.width * (pw / (iw : ℚ)), word.height * (ph / (ih : ℚ))⟩) ∧
    pageSpaceBox ((512 : ℚ) / ((1024 : ℕ) : ℚ)) ((512 : ℚ) / ((1024 : ℕ) : ℚ))
        ⟨"Hello", .num 90, 100, 100, 200, 40⟩ = ⟨50, 50, 100, 20⟩ ∧
    make_searchable scenarioA_adapters scenarioA_doc none =
      .ok (⟨[⟨512, 512, [⟨50, 67, "Hello", 17⟩]⟩], true⟩, true, 1) := by
  refine ⟨fun _ _ _ _ _ => rfl, ?_, ?_⟩
  · norm_num [pageSpaceBox]
  · have h1 : pyStrip "Hello" = "Hello" := by decide
    have h2 : ("Hello" = "") = False := by decide
    norm_num [make_searchable, pageNums, scenarioA_adapters, scenarioA_doc, runPages,
      List.range_succ, List.filterMap_cons, processWord, pageSpaceBox, clampFS, normConf,
      h1, h2, List.getElem?_cons_zero]

/-- C2: the fitter rejects a word exactly when its stripped text is empty or
its (normalized) confidence is below 30 — unconditionally in the forward
direction and, when measurement and writing succeed, as an equivalence; a
non-numeric confidence normalizes to 0 and is therefore always rejected,
regardless of box geometry. -/
theorem C2_fitter_rejection :
    (∀ (measure : String → ℚ → Option ℚ) (wr : String → ℚ → Bool) (sx sy : ℚ)
        (word : RecWord),
        pyStrip word.text = "" ∨ normConf word.conf < 30 →
        processWord measure wr sx sy word = none) ∧
    (∀ (measure : String → ℚ → Option ℚ) (wr : String → ℚ → Bool) (sx sy : ℚ)
        (word : RecWord),
        (∀ s fs, (measure s fs).isSome = true) →
        (∀ s fs, wr s fs = true) →
        (processWord measure wr sx sy word = none ↔
          pyStrip word.text = "" ∨ normConf word.conf < 30)) ∧
    normConf .nonNum = 0 ∧
    (∀ (measure : String → ℚ → Option ℚ) (wr : String → ℚ → Bool) (sx sy : ℚ)
        (word : RecWord),
        word.conf = .nonNum → processWord measure wr sx sy word = none) := by
  have hrej : ∀ (measure : String → ℚ → Option ℚ) (wr : String → ℚ → Bool) (sx sy : ℚ)
      (word : RecWord),
      pyStrip word.text = "" ∨ normConf word.conf < 30 →
      processWord measure wr sx sy word = none := by
    intro measure wr sx sy word h
    simp only [processWord]
    rw [if_pos h]
  refine ⟨hrej, ?_, rfl, ?_⟩
  · intro measure wr sx sy word hm hw
    constructor
    · intro hnone
      by_contra hcond
      revert hnone
      obtain ⟨tl, htl⟩ := Option.isSome_iff_exists.mp (hm (pyStrip word.text)
        (clampFS ((pageSpaceBox sx sy word).h * (85 / 100))))
      simp [processWord, if_neg hcond, htl, hw]
    · exact hrej measure wr sx sy word
  · intro measure wr sx sy word h
    exact hrej measure wr sx sy word (Or.inr (by rw [h]; decide))

/-- Witness for C2: the empty-text word `"   "` is rejected despite
confidence 95; with always-succeeding collaborators the rejection of
`"Hi"`/confidence 29 is exactly the threshold test; a non-numeric
confidence is rejected. -/
theorem C2_fitter_rejection_witness :
    processWord (fun _ _ => some 1) (fun _ _ => true) 1 1 ⟨"   ", .num 95, 0, 0, 1, 1⟩ = none ∧
    (processWord (fun _ _ => some 1) (fun _ _ => true) 1 1 ⟨"Hi", .num 29, 0, 0, 1, 1⟩ = none ↔
      pyStrip "Hi" = "" ∨ normConf (.num 29) < 30) ∧
    processWord (fun _ _ => some 1) (fun _ _ => true) 1 1 ⟨"x", .nonNum, 0, 0, 1, 1⟩ = none :=
  ⟨C2_fitter_rejection.1 _ _ 1 1 _ (Or.inl (by decide)),
   C2_fitter_rejection.2.1 _ _ 1 1 _ (fun _ _ => rfl) (fun _ _ => rfl),
   C2_fitter_rejection.2.2.2 _ _ 1 1 _ rfl⟩

/-- C3: for an accepted word the committed font size is the initial estimate
`clamp(box.h * 0.85, 4, 72)`, rescaled exactly once to
`clamp(fontSize * (box.w / tl), 4, 72)` when the measured width `tl` and the
box width are positive (no further refinement); the final size always lies
in `[4, 72]`; and the text is anchored at `(box.x, box.y + box.h * 0.85)`. -/
theorem C3_font_size_and_anchor :
    ∀ (measure : String → ℚ → Option ℚ) (wr : String → ℚ → Bool) (sx sy : ℚ)
      (word : RecWord) (e : Entry) (tl : ℚ),
      measure (pyStrip word.text) (clampFS ((pageSpaceBox sx sy word).h * (85 / 100))) =
        some tl →
      processWord measure wr sx sy word = some e →
      e.fontSize =
        (if 0 < tl ∧ 0 < (pageSpaceBox sx sy word).w then
          clampFS (clampFS ((pageSpaceBox sx sy word).h * (85 / 100)) *
            ((pageSpaceBox sx sy word).w / tl))
        else clampFS ((pageSpaceBox sx sy word).h * (85 / 100))) ∧
      4 ≤ e.fontSize ∧ e.fontSize ≤ 72 ∧
      e.anchorX = (pageSpaceBox sx sy word).x ∧
      e.anchorY = (pageSpaceBox sx sy word).y + (pageSpaceBox sx sy word).h * (85 / 100) ∧
      e.text = pyStrip word.text := by
  intro measure wr sx sy word e tl hm hp
  simp only [processWord] at hp
  by_cases hc : pyStrip word.text = "" ∨ normConf word.conf < 30
  · rw [if_pos hc] at hp
    exact absurd hp (by simp)
  · rw [if_neg hc, hm] at hp
    split at hp
    · exact absurd hp (by simp)
    · rename_i tl2 heq
      injection heq with heq
      subst heq
      split at hp <;> rename_i ht <;> split at hp
      · injection hp with hp
        subst hp
        exact ⟨(if_pos ht).symm, clampFS_lower _, clampFS_upper _, rfl, rfl, rfl⟩
      · exact absurd hp (by simp)
      · injection hp with hp
        subst hp
        exact ⟨(if_neg ht).symm, clampFS_lower _, clampFS_upper _, rfl, rfl, rfl⟩
      · exact absurd hp (by simp)

/-- Witness for C3 at Scenario A's word: the accepted entry
`⟨50, 67, "Hello", 17⟩` has its font size in `[4, 72]` and is anchored at
`(box.x, box.y + box.h * 0.85)` for the page-space box of that word. -/
theorem C3_font_size_and_anchor_witness :
    (4 : ℚ) ≤ (⟨50, 67, "Hello", 17⟩ : Entry).fontSize ∧
    (⟨50, 67, "Hello", 17⟩ : Entry).fontSize ≤ 72 ∧
    (⟨50, 67, "Hello", 17⟩ : Entry).anchorX =
      (pageSpaceBox (1/2) (1/2) ⟨"Hello", .num 90, 100, 100, 200, 40⟩).x ∧
    (⟨50, 67, "Hello", 17⟩ : Entry).anchorY =
      (pageSpaceBox (1/2) (1/2) ⟨"Hello", .num 90, 100, 100, 200, 40⟩).y +
        (pageSpaceBox (1/2) (1/2) ⟨"Hello", .num 90, 100, 100, 200, 40⟩).h * (85 / 100) := by
  have hp : processWord (fun _ _ => some 100) (fun _ _ => true) (1/2) (1/2)
      ⟨"Hello", .num 90, 100, 100, 200, 40⟩ = some ⟨50, 67, "Hello", 17⟩ := by
    have h1 : pyStrip "Hello" = "Hello" := by decide
    have h2 : ("Hello" = "") = False := by decide
    norm_num [processWord, pageSpaceBox, clampFS, normConf, h1, h2]
  have h := C3_font_size_and_anchor (fun _ _ => some 100) (fun _ _ => true) (1/2) (1/2)
    ⟨"Hello", .num 90, 100, 100, 200, 40⟩ ⟨50, 67, "Hello", 17⟩ 100 rfl hp
  exact ⟨h.2.1, h.2.2.1, h.2.2.2.1, h.2.2.2.2.1⟩

/-- Adapters that always report "nothing": the rasterizer returns `None`
for every page, OCR returns no words, measurement raises and the writer
raises.  Used to exercise boundary runs of the pass. -/
def noopAdapters : Adapters where
  render := fun _ => .ok none
  ocr := fun _ => .ok []
  measure := fun _ _ => none
  wr := fun _ _ => false

/-- C4: `succeeded` is true iff `pagesProcessed > 0`; the pass leaves the
modified flag at `is_modified || succeeded` (so an initially unmodified
document ends marked modified exactly when the pass succeeded); a zero-page
document yields `{pagesProcessed: 0, succeeded: false}` unchanged. -/
theorem C4_success_and_modified :
    ∀ (A : Adapters) (doc : PDFDocument) (page_num : Option ℕ)
      (doc2 : PDFDocument) (succ : Bool) (n : ℕ),
      make_searchable A doc page_num = .ok (doc2, succ, n) →
      (succ = true ↔ 0 < n) ∧
      doc2.is_modified = (doc.is_modified || succ) ∧
      (doc.is_modified = false → (doc2.is_modified = true ↔ succ = true)) ∧
      (doc.pages = [] → page_num = none → doc2 = doc ∧ succ = false ∧ n = 0) := by
  intro A doc page_num doc2 succ n h
  rw [make_searchable_ok_iff] at h
  obtain ⟨pages2, hrun, hdoc, hsucc⟩ := h
  subst hdoc; subst hsucc
  refine ⟨by simp, ?_, ?_, ?_⟩
  · by_cases hn : 0 < n <;> simp [hn]
  · intro hm
    by_cases hn : 0 < n <;> simp [hn, hm]
  · intro hpages hpn
    subst hpn
    simp only [pageNums, hpages, List.length_nil, List.range_zero, runPages,
      Except.ok.injEq, Prod.mk.injEq] at hrun
    obtain ⟨h1, h2⟩ := hrun
    subst h1; subst h2
    refine ⟨?_, rfl, rfl⟩
    simp only [lt_self_iff_false, if_false, reduceIte]
    rw [← hpages]

/-- Witness for C4: on a zero-page, unmodified document with no-op adapters
the pass returns the document unchanged with `succeeded = false` and
`pagesProcessed = 0`. -/
theorem C4_success_and_modified_witness :
    (⟨[], false⟩ : PDFDocument) = ⟨[], false⟩ ∧ false = false ∧ (0 : ℕ) = 0 :=
  (C4_success_and_modified noopAdapters ⟨[], false⟩ none ⟨[], false⟩ false 0 rfl).2.2.2
    rfl rfl

/-- Adapters whose rasterizer raises on page 0 but succeeds on every later
page (returning a 1×1 bitmap with no recognized words). -/
def raisingRender_adapters : Adapters where
  render := fun p => if p = 0 then .error .adapterErr else .ok (some ⟨1, 1⟩)
  ocr := fun _ => .ok []
  measure := fun _ _ => none
  wr := fun _ _ => false

/-- A two-page document, both pages 10×10 pt with empty text layers. -/
def twoPage_doc : PDFDocument := ⟨[⟨10, 10, []⟩, ⟨10, 10, []⟩], false⟩

/-- Counterexample to C5: when the rasterizer raises on page 0 of a two-page
document, `make_searchable` does not skip that page and continue — the
exception propagates, the pass aborts with an error, and no `.ok` result
(in particular none counting the processable page 1) is returned. -/
theorem C5_counterexample :
    make_searchable raisingRender_adapters twoPage_doc none = .error .adapterErr ∧
    ∀ r, make_searchable raisingRender_adapters twoPage_doc none ≠ .ok r := by
  have h1 : make_searchable raisingRender_adapters twoPage_doc none =
      .error .adapterErr := rfl
  exact ⟨h1, fun r h => by rw [h1] at h; exact absurd h (by simp)⟩

/-- C5 amended: a page for which the rasterizer *returns* no bitmap
(`None`) is skipped without incrementing the count and the loop continues
with the remaining pages; but when the rasterizer or the OCR adapter
*raises*, the error propagates out of the page loop and aborts the pass. -/
theorem C5_adapter_failures :
    ∀ (A : Adapters) (pages : List Page) (p : ℕ) (rest : List ℕ) (n : ℕ),
      (A.render p = .ok none →
        runPages A (p :: rest) pages n = runPages A rest pages n) ∧
      (∀ e page, pages[p]? = some page → A.render p = .error e →
        runPages A (p :: rest) pages n = .error e) ∧
      (∀ e page img, pages[p]? = some page → A.render p = .ok (some img) →
        img.w ≠ 0 → img.h ≠ 0 → A.ocr p = .error e →
        runPages A (p :: rest) pages n = .error e) := by
  intro A pages p rest n
  refine ⟨?_, ?_, ?_⟩
  · intro hr
    cases hg : pages[p]? with
    | none => simp [runPages, hg]
    | some page => simp [runPages, hg, hr]
  · intro e page hg hr
    simp [runPages, hg, hr]
  · intro e page img hg hr hw hh ho
    simp [runPages, hg, hr, hw, hh, ho]

/-- Witness for the amended C5: with the no-op adapters a returned `None`
bitmap skips page 0 of a one-page document; with the raising adapters the
error from page 0 is the result of the loop over `[0, 1]`. -/
theorem C5_adapter_failures_witness :
    runPages noopAdapters (0 :: []) [⟨10, 10, []⟩] 0 =
      runPages noopAdapters [] [⟨10, 10, []⟩] 0 ∧
    runPages raisingRender_adapters (0 :: [1]) twoPage_doc.pages 0 =
      .error .adapterErr :=
  ⟨(C5_adapter_failures noopAdapters [⟨10, 10, []⟩] 0 [] 0).1 rfl,
   (C5_adapter_failures raisingRender_adapters twoPage_doc.pages 0 [1] 0).2.1
     .adapterErr ⟨10, 10, []⟩ rfl rfl⟩

/-- C6: a failing width measurement or a failing per-entry write rejects
only that word — the word yields no entry, the other words of the page are
unaffected (the page's entry list splits around the failed word), and the
page is still counted as processed with the pass continuing normally. -/
theorem C6_per_word_failure_isolation :
    ∀ (measure : String → ℚ → Option ℚ) (wr : String → ℚ → Bool) (sx sy : ℚ)
      (word : RecWord) (ws1 ws2 : List RecWord),
      (measure (pyStrip word.text) (clampFS ((pageSpaceBox sx sy word).h * (85 / 100))) =
          none →
        processWord measure wr sx sy word = none) ∧
      ((∀ fs, wr (pyStrip word.text) fs = false) →
        processWord measure wr sx sy word = none) ∧
      (processWord measure wr sx sy word = none →
        (ws1 ++ word :: ws2).filterMap (processWord measure wr sx sy) =
          ws1.filterMap (processWord measure wr sx sy) ++
            ws2.filterMap (processWord measure wr sx sy)) ∧
      (∀ (A : Adapters) (pages : List Page) (p : ℕ) (rest : List ℕ) (n : ℕ)
          (page : Page) (img : Bitmap) (words : List RecWord),
        pages[p]? = some page → A.render p = .ok (some img) →
        img.w ≠ 0 → img.h ≠ 0 → A.ocr p = .ok words →
        runPages A (p :: rest) pages n =
          runPages A rest
            (pages.set p
              { page with
                content := page.content ++
                  words.filterMap (processWord A.measure A.wr
                    (page.rectW / (img.w : ℚ)) (page.rectH / (img.h : ℚ))) })
            (n + 1)) := by
  intro measure wr sx sy word ws1 ws2
  refine ⟨?_, ?_, ?_, ?_⟩
  · intro hm
    simp only [processWord]
    split
    · rfl
    · rw [hm]
  · intro hw
    simp only [processWord]
    split
    · rfl
    · cases measure (pyStrip word.text)
          (clampFS ((pageSpaceBox sx sy word).h * (85 / 100))) with
      | none => rfl
      | some tl => simp [hw]
  · intro hnone
    simp [List.filterMap_append, List.filterMap_cons, hnone]
  · intro A pages p rest n page img words hg hr hw hh ho
    simp [runPages, hg, hr, hw, hh, ho]

/-- Adapters with one recognized word whose width measurement raises
(`fitz.get_text_length` fails), over a 1×1 bitmap. -/
def failingWord_adapters : Adapters where
  render := fun _ => .ok (some ⟨1, 1⟩)
  ocr := fun _ => .ok [⟨"Hi", .num 90, 0, 0, 1, 1⟩]
  measure := fun _ _ => none
  wr := fun _ _ => false

/-- Witness for C6: the word whose measurement raises yields no entry, and
the page whose only word fails is still counted as processed (the count
advances from 0 to 1). -/
theorem C6_per_word_failure_isolation_witness :
    processWord (fun _ _ => none) (fun _ _ => true) 1 1 ⟨"Hi", .num 90, 0, 0, 1, 1⟩ = none ∧
    runPages failingWord_adapters (0 :: []) [⟨10, 10, []⟩] 0 =
      runPages failingWord_adapters []
        ([⟨10, 10, []⟩].set 0
          ⟨10, 10, [] ++ [RecWord.mk "Hi" (.num 90) 0 0 1 1].filterMap
            (processWord failingWord_adapters.measure failingWord_adapters.wr
              ((10 : ℚ) / ((1 : ℕ) : ℚ)) ((10 : ℚ) / ((1 : ℕ) : ℚ)))⟩)
        (0 + 1) :=
  ⟨(C6_per_word_failure_isolation (fun _ _ => none) (fun _ _ => true) 1 1
      ⟨"Hi", .num 90, 0, 0, 1, 1⟩ [] []).1 rfl,
   (C6_per_word_failure_isolation (fun _ _ => none) (fun _ _ => true) 1 1
      ⟨"Hi", .num 90, 0, 0, 1, 1⟩ [] []).2.2.2 failingWord_adapters
     [⟨10, 10, []⟩] 0 [] 0 ⟨10, 10, []⟩ ⟨1, 1⟩ [⟨"Hi", .num 90, 0, 0, 1, 1⟩]
     rfl rfl (by decide) (by decide) rfl⟩

/-- Adapters whose rasterizer returns a degenerate 0×100 px bitmap. -/
def zeroWidthBitmap_adapters : Adapters where
  render := fun _ => .ok (some ⟨0, 100⟩)
  ocr := fun _ => .ok []
  measure := fun _ _ => none
  wr := fun _ _ => false

/-- A single 612×792 pt page with an empty text layer. -/
def onePage_doc : PDFDocument := ⟨[⟨612, 792, []⟩], false⟩

/-- C7 (documents a code bug): on a page whose rendered bitmap has zero
pixel width the pass does not skip the page — `sx, sy = pw/iw, ph/ih` is
reached with `iw = 0`, and the resulting `ZeroDivisionError` aborts the
whole pass instead of the skip the claim describes. -/
theorem C7_zero_size_bitmap_divides :
    make_searchable zeroWidthBitmap_adapters onePage_doc none = .error .zeroDiv ∧
    ∀ r, make_searchable zeroWidthBitmap_adapters onePage_doc none ≠ .ok r := by
  have h1 : make_searchable zeroWidthBitmap_adapters onePage_doc none =
      .error .zeroDiv := rfl
  exact ⟨h1, fun r h => by rw [h1] at h; exact absurd h (by simp)⟩

/-- Counterexample to C8: the confidence normalization does not zero
out-of-range numeric values — 150 normalizes to 150 and -1 to -1 — and a
word with confidence 150 is accepted (treating 150 as zero would reject
it at the `conf < 30` threshold). -/
theorem C8_counterexample :
    normConf (.num 150) = 150 ∧ normConf (.num (-1)) = -1 ∧
    processWord (fun _ _ => some 1) (fun _ _ => true) 1 1
      ⟨"Hello", .num 150, 0, 0, 1, 1⟩ ≠ none := by
  refine ⟨rfl, rfl, ?_⟩
  have h1 : pyStrip "Hello" = "Hello" := by decide
  have h2 : ("Hello" = "") = False := by decide
  norm_num [processWord, pageSpaceBox, clampFS, normConf, h1, h2]
  exact Option.some_ne_none _

/-- C8 amended: only a non-numeric confidence is normalized to 0; a numeric
confidence, even outside 0–100, is used as-is by the threshold test — 150
passes (the word is accepted) while -1 fails because `-1 < 30`. -/
theorem C8_conf_normalization :
    (∀ n : ℤ, normConf (.num n) = n) ∧
    normConf .nonNum = 0 ∧
    processWord (fun _ _ => some 1) (fun _ _ => true) 1 1
      ⟨"Hello", .num 150, 0, 0, 1, 1⟩ = some ⟨0, 85 / 100, "Hello", 4⟩ ∧
    processWord (fun _ _ => some 1) (fun _ _ => true) 1 1
      ⟨"Hello", .num (-1), 0, 0, 1, 1⟩ = none ∧
    processWord (fun _ _ => some 1) (fun _ _ => true) 1 1
      ⟨"Hello", .nonNum, 0, 0, 1, 1⟩ = none := by
  have h1 : pyStrip "Hello" = "Hello" := by decide
  have h2 : ("Hello" = "") = False := by decide
  refine ⟨fun _ => rfl, rfl, ?_, ?_, ?_⟩
  · norm_num [processWord, pageSpaceBox, clampFS, normConf, h1, h2]
  · norm_num [processWord, pageSpaceBox, clampFS, normConf, h1, h2]
  · norm_num [processWord, pageSpaceBox, clampFS, normConf, h1, h2]

/-- The page loop never changes the number of pages of the document. -/
theorem runPages_length :
    ∀ (pns : List ℕ) (A : Adapters) (pages pages2 : List Page) (n c : ℕ),
      runPages A pns pages n = .ok (pages2, c) → pages2.length = pages.length := by
  intro pns
  induction pns with
  | nil =>
    intro A pages pages2 n c h
    simp only [runPages, Except.ok.injEq, Prod.mk.injEq] at h
    rw [← h.1]
  | cons p rest ih =>
    intro A pages pages2 n c h
    simp only [runPages] at h
    split at h
    · exact ih _ _ _ _ _ h
    · split at h
      · exact absurd h (by simp)
      · exact ih _ _ _ _ _ h
      · split at h
        · exact absurd h (by simp)
        · split at h
          · exact absurd h (by simp)
          · rw [ih _ _ _ _ _ h, List.length_set]

/-- Page-loop step: a page number `get_page` cannot resolve is skipped. -/
theorem runPages_skip_missing (A : Adapters) (pages : List Page) (p : ℕ)
    (rest : List ℕ) (n : ℕ) (hg : pages[p]? = none) :
    runPages A (p :: rest) pages n = runPages A rest pages n := by
  simp [runPages, hg]

/-- Page-loop step: a page whose rendering returns `None` is skipped. -/
theorem runPages_skip_render_none (A : Adapters) (pages : List Page) (p : ℕ)
    (rest : List ℕ) (n : ℕ) (page : Page) (hg : pages[p]? = some page)
    (hr : A.render p = .ok none) :
    runPages A (p :: rest) pages n = runPages A rest pages n := by
  simp [runPages, hg, hr]

/-- Page-loop step: a raise inside the rasterizer propagates. -/
theorem runPages_render_raise (A : Adapters) (pages : List Page) (p : ℕ)
    (rest : List ℕ) (n : ℕ) (page : Page) (e : PyErr)
    (hg : pages[p]? = some page) (hr : A.render p = .error e) :
    runPages A (p :: rest) pages n = .error e := by
  simp [runPages, hg, hr]

/-- Page-loop step: a zero-sized bitmap raises `ZeroDivisionError`. -/
theorem runPages_zeroDiv (A : Adapters) (pages : List Page) (p : ℕ)
    (rest : List ℕ) (n : ℕ) (page : Page) (img : Bitmap)
    (hg : pages[p]? = some page) (hr : A.render p = .ok (some img))
    (hz : img.w = 0 ∨ img.h = 0) :
    runPages A (p :: rest) pages n = .error .zeroDiv := by
  simp only [runPages, hg, hr]
  rw [if_pos hz]

/-- Page-loop step: a raise inside the OCR adapter propagates. -/
theorem runPages_ocr_raise (A : Adapters) (pages : List Page) (p : ℕ)
    (rest : List ℕ) (n : ℕ) (page : Page) (img : Bitmap) (e : PyErr)
    (hg : pages[p]? = some page) (hr : A.render p = .ok (some img))
    (hz : ¬(img.w = 0 ∨ img.h = 0)) (ho : A.ocr p = .error e) :
    runPages A (p :: rest) pages n = .error e := by
  simp only [runPages, hg, hr]
  rw [if_neg hz]
  simp [ho]

/-- Page-loop step: a fully successful page appends its accepted entries
and increments the processed count. -/
theorem runPages_page_ok (A : Adapters) (pages : List Page) (p : ℕ)
    (rest : List ℕ) (n : ℕ) (page : Page) (img : Bitmap) (words : List RecWord)
    (hg : pages[p]? = some page) (hr : A.render p = .ok (some img))
    (hz : ¬(img.w = 0 ∨ img.h = 0)) (ho : A.ocr p = .ok words) :
    runPages A (p :: rest) pages n =
      runPages A rest
        (pages.set p
          { page with
            content := page.content ++
              words.filterMap (processWord A.measure A.wr
                (page.rectW / (img.w : ℚ)) (page.rectH / (img.h : ℚ))) })
        (n + 1) := by
  simp only [runPages, hg, hr]
  rw [if_neg hz]
  simp [ho]

/-- The outcome of the page loop — error, or the processed count — depends
only on the page numbers, the adapters and how many pages the document
has, not on the pages' stored content. -/
theorem runPages_snd_congr :
    ∀ (pns : List ℕ) (A : Adapters) (pages1 pages2 : List Page) (n : ℕ),
      pages1.length = pages2.length →
      (runPages A pns pages1 n).map Prod.snd =
        (runPages A pns pages2 n).map Prod.snd := by
  intro pns
  induction pns with
  | nil => intro A p1 p2 n _; rfl
  | cons p rest ih =>
    intro A p1 p2 n hlen
    cases hg1 : p1[p]? with
    | none =>
      have hle : p1.length ≤ p := by
        by_contra hcon
        push_neg at hcon
        rw [List.getElem?_eq_getElem hcon] at hg1
        cases hg1
      have hg2 : p2[p]? = none := List.getElem?_eq_none (hlen ▸ hle)
      rw [runPages_skip_missing A p1 p rest n hg1,
        runPages_skip_missing A p2 p rest n hg2]
      exact ih A p1 p2 n hlen
    | some pg1 =>
      have hp1 : p < p1.length := by
        by_contra hcon
        push_neg at hcon
        rw [List.getElem?_eq_none hcon] at hg1
        cases hg1
      have hp2 : p < p2.length := hlen ▸ hp1
      obtain ⟨pg2, hg2⟩ : ∃ x, p2[p]? = some x :=
        ⟨p2.get ⟨p, hp2⟩, List.getElem?_eq_getElem hp2⟩
      cases hr : A.render p with
      | error e =>
        rw [runPages_render_raise A p1 p rest n pg1 e hg1 hr,
          runPages_render_raise A p2 p rest n pg2 e hg2 hr]
      | ok oimg =>
        cases oimg with
        | none =>
          rw [runPages_skip_render_none A p1 p rest n pg1 hg1 hr,
            runPages_skip_render_none A p2 p rest n pg2 hg2 hr]
          exact ih A p1 p2 n hlen
        | some img =>
          by_cases hz : img.w = 0 ∨ img.h = 0
          · rw [runPages_zeroDiv A p1 p rest n pg1 img hg1 hr hz,
              runPages_zeroDiv A p2 p rest n pg2 img hg2 hr hz]
          · cases ho : A.ocr p with
            | error e =>
              rw [runPages_ocr_raise A p1 p rest n pg1 img e hg1 hr hz ho,
                runPages_ocr_raise A p2 p rest n pg2 img e hg2 hr hz ho]
            | ok words =>
              rw [runPages_page_ok A p1 p rest n pg1 img words hg1 hr hz ho,
                runPages_page_ok A p2 p rest n pg2 img words hg2 hr hz ho]
              apply ih
              rw [List.length_set, List.length_set]
              exact hlen

/-- C9: with deterministic adapters a second run of `make_searchable` on
the document returned by a first successful run yields the same
`pagesProcessed` count and the same success flag (entries are additive,
but the count and flag are stable). -/
theorem C9_idempotent_count :
    ∀ (A : Adapters) (doc doc1 : PDFDocument) (succ : Bool) (n : ℕ),
      make_searchable A doc none = .ok (doc1, succ, n) →
      ∃ doc2, make_searchable A doc1 none = .ok (doc2, succ, n) := by
  intro A doc doc1 succ n h
  rw [make_searchable_ok_iff] at h
  obtain ⟨pages2, hrun, hdoc, hsucc⟩ := h
  have hlen : pages2.length = doc.pages.length :=
    runPages_length _ _ _ _ _ _ hrun
  have hcong := runPages_snd_congr (pageNums doc none) A pages2 doc.pages 0 hlen
  rw [hrun] at hcong
  have hpn : pageNums doc1 none = pageNums doc none := by
    rw [hdoc]
    simp [pageNums, hlen]
  cases hrun2 : runPages A (pageNums doc none) pages2 0 with
  | error e =>
    rw [hrun2] at hcong
    exact absurd hcong (by simp [Except.map])
  | ok pr =>
    obtain ⟨q, c⟩ := pr
    rw [hrun2] at hcong
    simp only [Except.map, Except.ok.injEq] at hcong
    refine ⟨⟨q, if 0 < n then true else doc1.is_modified⟩, ?_⟩
    rw [make_searchable_ok_iff]
    refine ⟨q, ?_, rfl, hsucc⟩
    have hpages : doc1.pages = pages2 := by rw [hdoc]
    rw [hpn, hpages, hrun2, hcong]

/-- Witness for C9: a one-page document whose rasterizer returns `None`;
the first run returns the document unchanged with count 0, and the theorem
yields a second run with the same flag and count. -/
theorem C9_idempotent_count_witness :
    ∃ doc2, make_searchable noopAdapters ⟨[⟨10, 10, []⟩], false⟩ none =
      .ok (doc2, false, 0) :=
  C9_idempotent_count noopAdapters ⟨[⟨10, 10, []⟩], false⟩ ⟨[⟨10, 10, []⟩], false⟩
    false 0 rfl

/-- C10: in single-page mode (`page_num` not `None`) at most one page is
processed (`pagesProcessed ≤ 1`), the number of pages is unchanged and the
stored content of every page other than the selected one is untouched. -/
theorem C10_single_page_frame :
    ∀ (A : Adapters) (doc : PDFDocument) (p : ℕ) (doc2 : PDFDocument)
      (succ : Bool) (n : ℕ),
      make_searchable A doc (some p) = .ok (doc2, succ, n) →
      n ≤ 1 ∧ doc2.pages.length = doc.pages.length ∧
        ∀ q, q ≠ p → doc2.pages[q]? = doc.pages[q]? := by
  intro A doc p doc2 succ n h
  rw [make_searchable_ok_iff] at h
  obtain ⟨pages2, hrun, hdoc, hsucc⟩ := h
  subst hdoc
  have hrun2 : runPages A [p] doc.pages 0 = .ok (pages2, n) := hrun
  cases hg : doc.pages[p]? with
  | none =>
    rw [runPages_skip_missing A doc.pages p [] 0 hg] at hrun2
    simp only [runPages, Except.ok.injEq, Prod.mk.injEq] at hrun2
    obtain ⟨h1, h2⟩ := hrun2
    subst h2
    exact ⟨by norm_num, by rw [← h1], fun q hq => by rw [← h1]⟩
  | some page =>
    cases hr : A.render p with
    | error e =>
      rw [runPages_render_raise A doc.pages p [] 0 page e hg hr] at hrun2
      exact absurd hrun2 (by simp)
    | ok oimg =>
      cases oimg with
      | none =>
        rw [runPages_skip_render_none A doc.pages p [] 0 page hg hr] at hrun2
        simp only [runPages, Except.ok.injEq, Prod.mk.injEq] at hrun2
        obtain ⟨h1, h2⟩ := hrun2
        subst h2
        exact ⟨by norm_num, by rw [← h1], fun q hq => by rw [← h1]⟩
      | some img =>
        by_cases hz : img.w = 0 ∨ img.h = 0
        · rw [runPages_zeroDiv A doc.pages p [] 0 page img hg hr hz] at hrun2
          exact absurd hrun2 (by simp)
        · cases ho : A.ocr p with
          | error e =>
            rw [runPages_ocr_raise A doc.pages p [] 0 page img e hg hr hz ho] at hrun2
            exact absurd hrun2 (by simp)
          | ok words =>
            rw [runPages_page_ok A doc.pages p [] 0 page img words hg hr hz ho] at hrun2
            simp only [runPages, Except.ok.injEq, Prod.mk.injEq] at hrun2
            obtain ⟨h1, h2⟩ := hrun2
            subst h2
            refine ⟨by norm_num, ?_, ?_⟩
            · rw [← h1, List.length_set]
            · intro q hq
              rw [← h1, List.getElem?_set_ne (Ne.symm hq)]

/-- Witness for C10: single-page mode on an empty document processes
nothing and leaves the (empty) page list untouched. -/
theorem C10_single_page_frame_witness :
    (0 : ℕ) ≤ 1 ∧
    (⟨[], false⟩ : PDFDocument).pages.length =
      (⟨[], false⟩ : PDFDocument).pages.length ∧
    ∀ q, q ≠ 0 →
      (⟨[], false⟩ : PDFDocument).pages[q]? = (⟨[], false⟩ : PDFDocument).pages[q]? :=
  C10_single_page_frame noopAdapters ⟨[], false⟩ 0 ⟨[], false⟩ false 0 rfl
